import Mathlib

/-!
# Verification of the go-by-examples repository against its specification

This file shallowly embeds the programs of the `go-by-examples` repository
(a collection of self-contained Go demonstration programs, one per file)
and proves or refutes the claims of the specification against them.

Two kinds of embedding are used:

* a *repository manifest*: one `Program` record per Go source file,
  transcribing the facts the repository-level claims quantify over
  (which symbols the file defines and references, which error results it
  checks and how, whether it starts an HTTP server and on which address,
  which files it creates, which concurrency primitives its text uses,
  whether it reads command-line flags);

* *functional embeddings* of the individual algorithms the value-level
  claims are about: the `intSeq` closure of `closures.go`, the
  pass-by-value `update` of `arrays.go`, the handlers of
  `http_server.go`, and the exact constant arithmetic of `constants.go`.

The Go files embedded (the `src/unnamed` parts are identified by their
`go run` transcripts in their own comments):
`arrays.go`, `closures.go`, `constants.go`, `exit.go` (the second
document staged inside src/constants.go, identified by its `go run
exit.go` transcript and by the repository's `### Exit` notes),
`exec_process.go`, `http_client.go`, `http_server.go`, `maps.go`,
`panic.go`, `spawing_process.go`, `time_parse_format.go`,
`context.go` (src/unnamed/part_000), `signals.go` (src/unnamed/part_003),
`defer.go` (src/unnamed/part_004).
The remaining three files (`README.md`, src/unnamed/part_001,
src/unnamed/part_002) are markdown notes, not programs.
-/

/-- How a Go program deals with an error value (or an error-carrying
multi-value result) returned to it at one call site.
The first four constructors are forms of handling the error
(panicking, logging fatally or with a panic, printing it);
the last three are forms of ignoring it:
`discardedBlank` is an explicit discard with the blank identifier `_`,
`returnIgnored` is a call used as a statement whose error result is
dropped, `boundNeverChecked` is an error bound to a variable that is
never compared to nil nor otherwise used before being overwritten. -/
inductive Handling where
  | panics
  | logPanic
  | logFatal
  | prints
  | discardedBlank
  | returnIgnored
  | boundNeverChecked
  deriving DecidableEq, Repr

/-- `true` exactly when the outcome handles the error (by panicking,
logging or printing) rather than ignoring it. -/
def Handling.handled : Handling → Bool
  | .panics => true
  | .logPanic => true
  | .logFatal => true
  | .prints => true
  | .discardedBlank => false
  | .returnIgnored => false
  | .boundNeverChecked => false

/-- Manifest entry for one Go source file of the repository.
Every field is transcribed from the file's text.
`errorOutcomes` lists the call sites returning an `error` (or an
error-carrying pair), except calls of the `fmt` print family used as
statements, whose `(n, err)` results Go programs conventionally drop;
those are excluded uniformly for every file. -/
structure Program where
  name : String
  /-- Top-level symbols (functions and constants) the file defines. -/
  definedSymbols : List String
  /-- Non-standard-library symbols the file's code references. -/
  referencedSymbols : List String
  /-- Package-level mutable variables the file declares. -/
  packageLevelVars : List String
  /-- Does the file call `http.ListenAndServe`? -/
  startsHttpServer : Bool
  /-- The (hardcoded) listen address, when it starts a server. -/
  listenAddr : Option String
  /-- Routes registered with `http.HandleFunc`. -/
  routes : List String
  /-- Error-returning call sites and how each error value is treated. -/
  errorOutcomes : List (String × Handling)
  /-- Files on disk the program creates when run (per its own transcript). -/
  createsFiles : List String
  /-- Does a value allocated inside one of its functions stay live and
  mutable after that function returns (a closure-captured variable)? -/
  localEscapes : Bool
  /-- Does the file's text contain a `go` statement? -/
  usesGoStatement : Bool
  /-- Does the file's text perform channel operations (send, receive,
  `select`)? -/
  usesChannelOps : Bool
  /-- Does the file use `sync.Mutex`? -/
  usesMutex : Bool
  /-- Does the file use `sync/atomic` counters? -/
  usesAtomic : Bool
  /-- Does the file use `sync.WaitGroup`? -/
  usesWaitGroup : Bool
  /-- Does the file read command-line flags (package `flag` or `os.Args`)? -/
  readsFlags : Bool
  deriving DecidableEq, Repr

/-- `arrays.go`: array value semantics demo; defines `main` and `update`. -/
def arraysGo : Program :=
  { name := "arrays.go"
    definedSymbols := ["main", "update"]
    referencedSymbols := ["update"]
    packageLevelVars := []
    startsHttpServer := false
    listenAddr := none
    routes := []
    errorOutcomes := []
    createsFiles := []
    localEscapes := false
    usesGoStatement := false
    usesChannelOps := false
    usesMutex := false
    usesAtomic := false
    usesWaitGroup := false
    readsFlags := false }

/-- `closures.go`: closure demo; the variable `i` of `intSeq` is captured
by the returned anonymous function and escapes to the heap. -/
def closuresGo : Program :=
  { name := "closures.go"
    definedSymbols := ["main", "intSeq"]
    referencedSymbols := ["intSeq"]
    packageLevelVars := []
    startsHttpServer := false
    listenAddr := none
    routes := []
    errorOutcomes := []
    createsFiles := []
    localEscapes := true
    usesGoStatement := false
    usesChannelOps := false
    usesMutex := false
    usesAtomic := false
    usesWaitGroup := false
    readsFlags := false }

/-- `constants.go` (first document of the staged src/constants.go):
constant arithmetic demo; defines the package-level constant `s`
(immutable, hence not a package-level variable) and `main`. The staged
file's second document is the separate program `exit.go`, embedded
below as `exitGo`. -/
def constantsGo : Program :=
  { name := "constants.go"
    definedSymbols := ["main", "s"]
    referencedSymbols := ["s"]
    packageLevelVars := []
    startsHttpServer := false
    listenAddr := none
    routes := []
    errorOutcomes := []
    createsFiles := []
    localEscapes := false
    usesGoStatement := false
    usesChannelOps := false
    usesMutex := false
    usesAtomic := false
    usesWaitGroup := false
    readsFlags := false }

/-- `exit.go` (second document of the staged src/constants.go, after the
document separator; the repository's markdown notes describe it under
`### Exit`): defers `fmt.Println("defer !")` and calls `os.Exit(3)`, so
the process exits with status 3 and the deferred print never runs.
`os.Exit` takes a status, not an error, so there is no error result to
record. -/
def exitGo : Program :=
  { name := "exit.go"
    definedSymbols := ["main"]
    referencedSymbols := []
    packageLevelVars := []
    startsHttpServer := false
    listenAddr := none
    routes := []
    errorOutcomes := []
    createsFiles := []
    localEscapes := false
    usesGoStatement := false
    usesChannelOps := false
    usesMutex := false
    usesAtomic := false
    usesWaitGroup := false
    readsFlags := false }

/-- `exec_process.go`: replaces the process by `ls` via `syscall.Exec`;
both error results are checked and handled with `panic`. -/
def execProcessGo : Program :=
  { name := "exec_process.go"
    definedSymbols := ["main"]
    referencedSymbols := []
    packageLevelVars := []
    startsHttpServer := false
    listenAddr := none
    routes := []
    errorOutcomes := [("exec.LookPath", .panics), ("syscall.Exec", .panics)]
    createsFiles := []
    localEscapes := false
    usesGoStatement := false
    usesChannelOps := false
    usesMutex := false
    usesAtomic := false
    usesWaitGroup := false
    readsFlags := false }

/-- `http_client.go`: fetches a page and logs each line; `http.Get` and
`scanner.Err` are checked with `log.Panicf`, while the error of the
deferred `resp.Body.Close()` is dropped. -/
def httpClientGo : Program :=
  { name := "http_client.go"
    definedSymbols := ["main"]
    referencedSymbols := []
    packageLevelVars := []
    startsHttpServer := false
    listenAddr := none
    routes := []
    errorOutcomes :=
      [("http.Get", .logPanic), ("resp.Body.Close", .returnIgnored),
       ("scanner.Err", .logPanic)]
    createsFiles := []
    localEscapes := false
    usesGoStatement := false
    usesChannelOps := false
    usesMutex := false
    usesAtomic := false
    usesWaitGroup := false
    readsFlags := false }

/-- `http_server.go`: registers `/hello` and `/headers` and listens on the
hardcoded address `127.0.0.1:8080`; the `ListenAndServe` error is handled
with `log.Panicf`. -/
def httpServerGo : Program :=
  { name := "http_server.go"
    definedSymbols := ["main", "hello", "headers"]
    referencedSymbols := ["hello", "headers"]
    packageLevelVars := []
    startsHttpServer := true
    listenAddr := some "127.0.0.1:8080"
    routes := ["/hello", "/headers"]
    errorOutcomes := [("http.ListenAndServe", .logPanic)]
    createsFiles := []
    localEscapes := false
    usesGoStatement := false
    usesChannelOps := false
    usesMutex := false
    usesAtomic := false
    usesWaitGroup := false
    readsFlags := false }

/-- `maps.go`: map demo; the comma-ok form `_, prs := m["k2"]` reads a
presence boolean, not an error. -/
def mapsGo : Program :=
  { name := "maps.go"
    definedSymbols := ["main"]
    referencedSymbols := []
    packageLevelVars := []
    startsHttpServer := false
    listenAddr := none
    routes := []
    errorOutcomes := []
    createsFiles := []
    localEscapes := false
    usesGoStatement := false
    usesChannelOps := false
    usesMutex := false
    usesAtomic := false
    usesWaitGroup := false
    readsFlags := false }

/-- `panic.go`: attempts `os.Create("/tmp/abc/xyz/file.txt")`, which fails
because the parent directories do not exist (per the file's own
transcript), so no file is created; the error is handled with
`log.Fatalf`. -/
def panicGo : Program :=
  { name := "panic.go"
    definedSymbols := ["main"]
    referencedSymbols := []
    packageLevelVars := []
    startsHttpServer := false
    listenAddr := none
    routes := []
    errorOutcomes := [("os.Create", .logFatal)]
    createsFiles := []
    localEscapes := false
    usesGoStatement := false
    usesChannelOps := false
    usesMutex := false
    usesAtomic := false
    usesWaitGroup := false
    readsFlags := false }

/-- `spawing_process.go`: spawns `date`, `grep` and `ls`. The two
`Output` errors are checked and panicked on; the `StdinPipe`,
`StdoutPipe` and `ReadAll` errors are discarded with `_`, and the error
results of `Start`, `Write`, `Close` and `Wait` are dropped by using the
calls as statements. -/
def spawingProcessGo : Program :=
  { name := "spawing_process.go"
    definedSymbols := ["main"]
    referencedSymbols := []
    packageLevelVars := []
    startsHttpServer := false
    listenAddr := none
    routes := []
    errorOutcomes :=
      [("dateCmd.Output", .panics),
       ("grepCmd.StdinPipe", .discardedBlank),
       ("grepCmd.StdoutPipe", .discardedBlank),
       ("grepCmd.Start", .returnIgnored),
       ("grepIn.Write", .returnIgnored),
       ("grepIn.Close", .returnIgnored),
       ("ioutil.ReadAll", .discardedBlank),
       ("grepCmd.Wait", .returnIgnored),
       ("lsCmd.Output", .panics)]
    createsFiles := []
    localEscapes := false
    usesGoStatement := false
    usesChannelOps := false
    usesMutex := false
    usesAtomic := false
    usesWaitGroup := false
    readsFlags := false }

/-- `time_parse_format.go`: the errors of the first two `time.Parse`
calls are bound to `e` but never checked before being overwritten; the
third one is printed with `p(e)`. -/
def timeParseFormatGo : Program :=
  { name := "time_parse_format.go"
    definedSymbols := ["main"]
    referencedSymbols := []
    packageLevelVars := []
    startsHttpServer := false
    listenAddr := none
    routes := []
    errorOutcomes :=
      [("time.Parse RFC3339", .boundNeverChecked),
       ("time.Parse form", .boundNeverChecked),
       ("time.Parse ansic", .prints)]
    createsFiles := []
    localEscapes := false
    usesGoStatement := false
    usesChannelOps := false
    usesMutex := false
    usesAtomic := false
    usesWaitGroup := false
    readsFlags := false }

/-- `context.go` (src/unnamed/part_000): an HTTP server on the hardcoded
address `:8090` with the single route `/hello`; its handler receives in a
`select` from `time.After` and `ctx.Done()`; the error result of
`http.ListenAndServe` is dropped, `ctx.Err()` is printed. -/
def contextGo : Program :=
  { name := "context.go"
    definedSymbols := ["main", "hello"]
    referencedSymbols := ["hello"]
    packageLevelVars := []
    startsHttpServer := true
    listenAddr := some ":8090"
    routes := ["/hello"]
    errorOutcomes :=
      [("ctx.Err", .prints), ("http.ListenAndServe", .returnIgnored)]
    createsFiles := []
    localEscapes := false
    usesGoStatement := false
    usesChannelOps := true
    usesMutex := false
    usesAtomic := false
    usesWaitGroup := false
    readsFlags := false }

/-- `signals.go` (src/unnamed/part_003): starts a goroutine that receives
a signal from channel `sigs` and sends on channel `done`; `main` blocks
receiving from `done`. -/
def signalsGo : Program :=
  { name := "signals.go"
    definedSymbols := ["main"]
    referencedSymbols := []
    packageLevelVars := []
    startsHttpServer := false
    listenAddr := none
    routes := []
    errorOutcomes := []
    createsFiles := []
    localEscapes := false
    usesGoStatement := true
    usesChannelOps := true
    usesMutex := false
    usesAtomic := false
    usesWaitGroup := false
    readsFlags := false }

/-- `defer.go` (src/unnamed/part_004): creates `/tmp/defer.txt`, writes
the line `data` to it and closes it with a deferred call; the `os.Create`
error is handled with `log.Panicf` and the `f.Close` error with
`log.Fatalf`. The created file persists after the process exits. -/
def deferGo : Program :=
  { name := "defer.go"
    definedSymbols := ["main", "createFile", "writeFile", "closeFile"]
    referencedSymbols := ["createFile", "writeFile", "closeFile"]
    packageLevelVars := []
    startsHttpServer := false
    listenAddr := none
    routes := []
    errorOutcomes := [("os.Create", .logPanic), ("f.Close", .logFatal)]
    createsFiles := ["/tmp/defer.txt"]
    localEscapes := false
    usesGoStatement := false
    usesChannelOps := false
    usesMutex := false
    usesAtomic := false
    usesWaitGroup := false
    readsFlags := false }

/-- All Go programs of the repository, one entry per program: the ten
named Go files (the staged src/constants.go holds two programs,
`constants.go` and `exit.go`), and the three programs among the
src/unnamed parts. -/
def programs : List Program :=
  [arraysGo, closuresGo, constantsGo, exitGo, execProcessGo, httpClientGo,
   httpServerGo, mapsGo, panicGo, spawingProcessGo, timeParseFormatGo,
   contextGo, signalsGo, deferGo]

/-- The body written by the `hello` handler of `http_server.go`
for every request. -/
def helloResponse : String := "Hello, World!\n"

/-- The body written by the `headers` handler of `http_server.go`:
one line per request header. Go iterates the header map in unspecified
order and prints the `[]string` value with `%s`; the embedding takes the
headers as an already-ordered association list whose values carry that
formatted form. -/
def headersResponse : List (String × String) → String
  | [] => ""
  | (k, v) :: rest =>
      "Header key: " ++ k ++ ", value : " ++ v ++ "\n" ++
        headersResponse rest

/-- Reduction of a mathematical integer to Go's 64-bit `int`:
two's-complement wrap-around into the range [-2^63, 2^63). The
repository's transcripts are from a 64-bit (amd64) machine, where `int`
is 64 bits wide and signed overflow wraps, as the Go specification
defines. -/
def wrapInt (z : Int) : Int := (z + 2 ^ 63) % 2 ^ 64 - 2 ^ 63

/-- One invocation of the anonymous function returned by `intSeq` in
`closures.go`: it increments the captured variable `i` — a Go `int`,
so the increment wraps at 2^63 — and returns the new value. The result
is the pair (new value of `i`, returned value). -/
def intSeqStep (i : Int) : Int × Int := (wrapInt (i + 1), wrapInt (i + 1))

/-- The initial value of the captured variable `i` set by `intSeq`. -/
def intSeqInit : Int := 0

/-- The value of one closure's captured `i` after `n` invocations,
starting from `intSeqInit`; for `n ≥ 1` this is also the value returned
by the n-th invocation of that closure. -/
def intSeqCounter : Nat → Int
  | 0 => intSeqInit
  | n + 1 => (intSeqStep (intSeqCounter n)).1

/-- The values printed by `main` of `closures.go`: three invocations of
`nextInt` (the closure from the first `intSeq()` call), then one
invocation of `anotherInt` (the closure from a second, separate
`intSeq()` call). Each closure carries its own captured `i`. -/
def closuresTrace : List Int :=
  let s1 := intSeqInit
  let p1 := intSeqStep s1
  let p2 := intSeqStep p1.1
  let p3 := intSeqStep p2.1
  let t1 := intSeqInit
  let q1 := intSeqStep t1
  [p1.2, p2.2, p3.2, q1.2]

/-- Interleaved execution of the closures obtained from two separate
`intSeq()` calls. The schedule lists which closure is invoked at each
step (`false` for the first, `true` for the second); the state is the
pair of the two captured counters. Returns the values the invocations
return, in order. -/
def runSchedule : List Bool → Int × Int → List Int
  | [], _ => []
  | c :: rest, s =>
      if c then
        (intSeqStep s.2).2 :: runSchedule rest (s.1, (intSeqStep s.2).1)
      else
        (intSeqStep s.1).2 :: runSchedule rest ((intSeqStep s.1).1, s.2)

/-- A Go `[5]int` array value. -/
def GoArray5 : Type := Fin 5 → Int

/-- The final value of the local parameter `arr` inside `update` of
`arrays.go`, after `arr[3] = 132`: Go passes arrays by value, so `arr`
is the callee's own copy of the argument. -/
def updateLocalFinal (arr : GoArray5) : GoArray5 :=
  Function.update arr 3 132

/-- The call `update(b)` in `main` of `arrays.go` under Go's
pass-by-value array semantics: the callee receives a copy of `b` and
mutates only that copy, so the caller's `b` after the call is the value
it had before, while the callee's local copy ends with index 3 set to
132. Returns (caller's `b` after the call, callee's final local `arr`). -/
def callUpdate (b : GoArray5) : GoArray5 × GoArray5 :=
  (b, updateLocalFinal b)

/-- The array `b := [5]int{1, 2, 3, 4, 5}` of `main` in `arrays.go`. -/
def mainB : GoArray5 := ![1, 2, 3, 4, 5]

/-- The untyped constant `n = 500000000` of `constants.go`. -/
def constN : Int := 500000000

/-- The untyped constant `d = 3e20 / n` of `constants.go`. Go evaluates
constant expressions with exact arbitrary-precision arithmetic, embedded
here as exact rational arithmetic. -/
def constD : Rat := (3 * 10 ^ 20 : Rat) / (constN : Rat)

/-- Go's conversion of an untyped constant to `int64`: legal exactly
when the constant is an integer representable in 64 signed bits, in
which case the value is that integer; otherwise a compile-time error,
embedded as `none`. -/
def int64OfConst (q : Rat) : Option Int :=
  if q.den = 1 ∧ -(2 ^ 63) ≤ q.num ∧ q.num < 2 ^ 63 then some q.num
  else none

/-- C1, counterexample: the claim says exactly one program starts an HTTP
server, but two do: `http_server.go` and `context.go`
(src/unnamed/part_000) both call `http.ListenAndServe`. -/
theorem claim_C1_counterexample :
    ¬ (programs.filter fun p => p.startsHttpServer).length = 1 := by
  decide

/-- C1, amended: exactly two programs start HTTP servers, each on a
hardcoded address: `http_server.go` listens on `127.0.0.1:8080` and
registers exactly the routes `/hello` (answered with the body
`Hello, World!\n` for every request) and `/headers` (answered with one
line per header of the request); `context.go` listens on `:8090` and
registers only `/hello`. -/
theorem claim_C1_amended :
    (programs.filter fun p => p.startsHttpServer).map Program.name =
      ["http_server.go", "context.go"] ∧
    httpServerGo.listenAddr = some "127.0.0.1:8080" ∧
    httpServerGo.routes = ["/hello", "/headers"] ∧
    contextGo.listenAddr = some ":8090" ∧
    contextGo.routes = ["/hello"] ∧
    helloResponse = "Hello, World!" ++ "\n" ∧
    (∀ k v rest, headersResponse ((k, v) :: rest) =
      "Header key: " ++ k ++ ", value : " ++ v ++ "\n" ++
        headersResponse rest) ∧
    headersResponse [] = "" :=
  ⟨by decide, rfl, rfl, rfl, rfl, rfl, fun _ _ _ => rfl, rfl⟩

/-- C2, counterexample: not every error value returned to a program is
checked and handled; `spawing_process.go` discards the errors of
`StdinPipe`, `StdoutPipe` and `ReadAll` with the blank identifier and
drops the error results of `Start`, `Write`, `Close` and `Wait`. -/
theorem claim_C2_counterexample :
    ¬ ∀ p ∈ programs, ∀ o ∈ p.errorOutcomes, o.2.handled = true := by
  decide

/-- C2, amended: every error value that a program does check is handled
by panicking, logging or exiting, and most programs check all of their
error results; but four programs ignore some error value returned to
them: `http_client.go` drops the error of the deferred `Body.Close`,
`spawing_process.go` discards or drops seven error results,
`time_parse_format.go` never checks the errors of its first two
`time.Parse` calls, and `context.go` drops the error of
`http.ListenAndServe`. -/
theorem claim_C2_amended :
    (programs.filter fun p => p.errorOutcomes.all fun o => o.2.handled).map
        Program.name =
      ["arrays.go", "closures.go", "constants.go", "exit.go",
       "exec_process.go", "http_server.go", "maps.go", "panic.go",
       "signals.go", "defer.go"] ∧
    (programs.filter fun p =>
        !(p.errorOutcomes.all fun o => o.2.handled)).map Program.name =
      ["http_client.go", "spawing_process.go", "time_parse_format.go",
       "context.go"] ∧
    (spawingProcessGo.errorOutcomes.filter fun o => !o.2.handled).map
        Prod.fst =
      ["grepCmd.StdinPipe", "grepCmd.StdoutPipe", "grepCmd.Start",
       "grepIn.Write", "grepIn.Close", "ioutil.ReadAll", "grepCmd.Wait"] := by
  refine ⟨by decide, by decide, by decide⟩

/-- C3, counterexample: `defer.go` (src/unnamed/part_004) creates the
file `/tmp/defer.txt` on disk, state that persists beyond process
exit. -/
theorem claim_C3_counterexample :
    ¬ ∀ p ∈ programs, p.createsFiles = [] := by
  decide

/-- C3, amended: every program except `defer.go` creates no state that
persists beyond the process; `defer.go` creates (and writes the line
`data` to) the file `/tmp/defer.txt`, which remains on disk after the
process exits. -/
theorem claim_C3_amended :
    (programs.filter fun p => !p.createsFiles.isEmpty).map Program.name =
      ["defer.go"] ∧
    deferGo.createsFiles = ["/tmp/defer.txt"] := by
  refine ⟨by decide, rfl⟩

/-- C4, counterexample: in `closures.go` the variable `i` allocated
inside `intSeq` remains live and mutable after `intSeq` returns: the
four closure invocations in `main` print `1, 2, 3, 1` (the second
invocation observes the mutation made by the first, both performed after
`intSeq` returned), whereas the claim would force every invocation to
start from a freshly discarded state and print `1, 1, 1, 1`. -/
theorem claim_C4_counterexample :
    closuresTrace = [1, 2, 3, 1] ∧ closuresTrace ≠ [1, 1, 1, 1] ∧
    closuresGo.localEscapes = true := by
  refine ⟨rfl, by decide, rfl⟩

/-- C4, amended: in every program except `closures.go`, entities are
created and discarded within a single function call; in `closures.go`
the counter `i` allocated inside `intSeq` remains live and mutable after
`intSeq` returns, which is why its closure invocations print
`1, 2, 3, 1`. -/
theorem claim_C4_amended :
    (programs.filter fun p => p.localEscapes).map Program.name =
      ["closures.go"] ∧
    closuresTrace = [1, 2, 3, 1] := by
  refine ⟨by decide, rfl⟩

/-- C5: every Go file of the repository is a self-contained `main`
program: each defines `main`, every non-standard-library symbol it
references is defined in the same file, and no file declares a
package-level mutable variable (so no two files can share state). -/
theorem claim_C5_selfContained :
    (programs.all fun p => p.definedSymbols.contains "main") = true ∧
    (programs.all fun p =>
      p.referencedSymbols.all fun s => p.definedSymbols.contains s) = true ∧
    (programs.all fun p => p.packageLevelVars.isEmpty) = true := by
  refine ⟨by decide, by decide, by decide⟩

/-- C6, counterexample: no program in the repository uses mutexes,
atomic counters or wait groups, and none is a worker-pool or
rate-limiter demo, contradicting the claim that each of these primitives
is exercised by some program. -/
theorem claim_C6_counterexample :
    (¬ ∃ p ∈ programs, p.usesMutex) ∧
    (¬ ∃ p ∈ programs, p.usesAtomic) ∧
    (¬ ∃ p ∈ programs, p.usesWaitGroup) := by
  refine ⟨by decide, by decide, by decide⟩

/-- C6, amended: the only concurrency demonstrations are `signals.go`,
which starts a goroutine and communicates over channels, and
`context.go`, whose handler receives from channels in a `select`; no
program exercises mutexes, atomic counters or wait groups, and there is
no worker-pool, mutex or rate-limiter demo program (those topics appear
only in the repository's markdown notes). -/
theorem claim_C6_amended :
    (programs.filter fun p => p.usesGoStatement).map Program.name =
      ["signals.go"] ∧
    (programs.filter fun p => p.usesChannelOps).map Program.name =
      ["context.go", "signals.go"] ∧
    (programs.all fun p =>
      !p.usesMutex && !p.usesAtomic && !p.usesWaitGroup) = true := by
  refine ⟨by decide, by decide, by decide⟩

/-- C7, counterexample: no program of the repository reads command-line
flags, contradicting the claim that some program does. -/
theorem claim_C7_counterexample :
    ¬ ∃ p ∈ programs, p.readsFlags := by
  decide

/-- C7, amended: no program of the repository reads command-line flags;
command-line flag parsing is only described in the repository's markdown
notes, not implemented by any program. -/
theorem claim_C7_amended :
    (programs.all fun p => !p.readsFlags) = true := by
  decide

/-- C9: `update` in `arrays.go` never modifies the caller's array.
Under Go's pass-by-value array semantics, for every 5-element array `b`
the caller's `b` after `update(b)` returns equals its value before the
call, even though `update` sets index 3 of its own copy to 132; in
particular for `main`'s array `[5]int{1, 2, 3, 4, 5}` index 3 still
holds 4 after the call. -/
theorem claim_C9_passByValue :
    (∀ b : GoArray5, (callUpdate b).1 = b ∧ (callUpdate b).2 3 = 132) ∧
    (callUpdate mainB).1 = mainB ∧ mainB 3 = 4 ∧
    (callUpdate mainB).2 3 = 132 := by
  refine ⟨fun b => ⟨rfl, ?_⟩, rfl, rfl, ?_⟩ <;>
    simp [callUpdate, updateLocalFinal]

/-- C10: the constant expression `d = 3e20 / 500000000` of
`constants.go` evaluates under Go's exact arbitrary-precision constant
arithmetic to exactly `6e11 = 600000000000`, and the conversion
`int64(d)` is legal and yields exactly 600000000000, with no rounding
error. -/
theorem claim_C10_exactConstant :
    constD = 600000000000 ∧ constD = 6 * 10 ^ 11 ∧
    int64OfConst constD = some 600000000000 := by
  have hd : constD = ((600000000000 : Int) : Rat) := by
    norm_num [constD, constN]
  refine ⟨by rw [hd]; norm_num, by rw [hd]; norm_num, ?_⟩
  rw [hd]
  unfold int64OfConst
  rw [Rat.den_intCast, Rat.num_intCast]
  norm_num

/-- Each scheduled invocation produces exactly one returned value. -/
theorem runSchedule_length (sched : List Bool) (s : Int × Int) :
    (runSchedule sched s).length = sched.length := by
  induction sched generalizing s with
  | nil => rfl
  | cons c rest ih => cases c <;> simp [runSchedule, ih]

/-- The invocation scheduled at position `p` returns the initial value
of its own closure's counter plus the number of invocations of that same
closure among positions `0..p`, reduced into Go's `int` range;
invocations of the other closure do not appear in the count. -/
theorem runSchedule_getD (sched : List Bool) :
    ∀ (a b : Int) (p : Nat), p < sched.length →
      (runSchedule sched (a, b)).getD p 0 =
        wrapInt (cond (sched.getD p false) b a +
          ((sched.take (p + 1)).count (sched.getD p false) : Int)) := by
  induction sched with
  | nil =>
      intro a b p h
      simp at h
  | cons c rest ih =>
      intro a b p h
      cases p with
      | zero => cases c <;> simp [runSchedule, intSeqStep, List.count_cons]
      | succ q =>
          have hq : q < rest.length := by simpa using h
          cases c with
          | false =>
              have hih := ih (wrapInt (a + 1)) b q hq
              simp only [runSchedule, intSeqStep, Bool.false_eq_true,
                if_false, List.getD_cons_succ, List.take_succ_cons,
                List.count_cons]
              rw [hih]
              cases ht : rest.getD q false <;> simp [ht, wrapInt]
              all_goals omega
          | true =>
              have hih := ih a (wrapInt (b + 1)) q hq
              simp only [runSchedule, intSeqStep, if_true,
                List.getD_cons_succ, List.take_succ_cons, List.count_cons]
              rw [hih]
              cases ht : rest.getD q false <;> simp [ht, wrapInt]
              all_goals omega

/-- The counter of one closure after `n` invocations is `n` reduced
into Go's `int` range. -/
theorem intSeqCounter_eq (n : Nat) : intSeqCounter n = wrapInt (n : Int) := by
  induction n with
  | zero => simp [intSeqCounter, intSeqInit, wrapInt]
  | succ k ih =>
      simp only [intSeqCounter, intSeqStep, ih]
      unfold wrapInt
      push_cast
      omega

/-- C8, counterexample: the captured counter `i` of `closures.go` is a
Go `int` and wraps at 2^63, so the claim fails at n = 2^63: the 2^63-th
invocation of a closure returned by `intSeq` returns -(2^63), not
2^63. -/
theorem claim_C8_counterexample :
    intSeqCounter (2 ^ 63) = -(2 ^ 63) ∧ ((-(2 ^ 63) : Int) ≠ 2 ^ 63) := by
  constructor
  · rw [intSeqCounter_eq]
    unfold wrapInt
    push_cast
  · omega

/-- C8, amended: in `closures.go`, both closures start with their
captured `i` at `intSeqInit = 0`, so for every interleaving of
invocations of the two closures obtained from two separate `intSeq()`
calls, the invocation at position `p` returns exactly the number `n` of
invocations of that same closure among positions `0..p`, provided
`n < 2^63` (beyond that the Go `int` counter wraps). Hence for every
`n` with `1 ≤ n < 2^63` the n-th invocation of a closure returned by
`intSeq` returns `n`, and the two closures have independent counters:
invocations of one never change the value the other returns next. -/
theorem claim_C8_amended (sched : List Bool) (p : Nat)
    (h : p < sched.length)
    (hn : (((sched.take (p + 1)).count (sched.getD p false) : Nat) : Int)
      < 2 ^ 63) :
    (runSchedule sched (intSeqInit, intSeqInit)).getD p 0 =
      (((sched.take (p + 1)).count (sched.getD p false) : Nat) : Int) := by
  have hrun := runSchedule_getD sched intSeqInit intSeqInit p h
  rw [hrun]
  simp only [Bool.cond_self, intSeqInit, zero_add]
  unfold wrapInt
  omega

/-- C8 witness: for the schedule first, second, first, the invocation at
position 2 is the second invocation of the first closure: both
hypotheses hold there and the invocation returns 2, unaffected by the
interleaved invocation of the second closure. -/
theorem claim_C8_amended_witness :
    (2 < ([false, true, false] : List Bool).length ∧
      (((([false, true, false] : List Bool).take 3).count
          (([false, true, false] : List Bool).getD 2 false) : Nat) : Int)
        < 2 ^ 63) ∧
    (runSchedule [false, true, false] (intSeqInit, intSeqInit)).getD 2 0
      = 2 := by
  refine ⟨⟨by decide, by decide⟩, ?_⟩
  have h := claim_C8_amended [false, true, false] 2 (by decide) (by decide)
  simpa using h
